import Mathlib

/-!
Shallow embedding of the two analysis scripts of the repository
(`clutch_player_analysis.py` and `compare_net_rating.py`).

Network fetches are modelled by their outcomes: an `Option (List ρ)` where
`none` stands for the call raising an exception and `some rows` for the
data frame the endpoint returned (already projected to the columns the
scripts read).  Float values coming out of pandas are modelled by `ℚ`,
and a float that can be NaN (a `0/0` division, a missing value, a `None`
entry of a data frame) by `Option ℚ` with `none` for NaN/None.
-/

namespace NbaClutch

/-- A row of the static player lookup (`players.find_players_by_full_name`). -/
structure Player where
  full_name : String
  id : ℕ
  is_active : Bool
deriving DecidableEq

/-- A row of the `LeagueDashPlayerClutch` (measure type `Base`) frame,
projected to the columns `analyze_clutch_player` reads. -/
structure ClutchRow where
  player_name : String
  gp : ℚ
  min : ℚ
  pts : ℚ
  fg_pct : ℚ
  fg3_pct : ℚ
  ft_pct : ℚ
  ast : ℚ
  tov : ℚ
  stl : ℚ
  blk : ℚ
  plus_minus : ℚ
deriving DecidableEq

/-- A row of the `LeagueDashPlayerClutch` (measure type `Advanced`) frame.
`ast_pct` is `Option` because the script stores `None` when the
`AST_PCT` column is absent. -/
structure AdvRow where
  player_name : String
  usg_pct : ℚ
  ts_pct : ℚ
  net_rating : ℚ
  off_rating : ℚ
  def_rating : ℚ
  ast_pct : Option ℚ
  pie : ℚ
deriving DecidableEq

/-- A row of the `LeagueDashPlayerStats` (measure type `Base`) frame,
projected to the columns read for the regular-season side. -/
structure RegRow where
  player_name : String
  pts : ℚ
  fg_pct : ℚ
  fg3_pct : ℚ
  ft_pct : ℚ
  ast : ℚ
  tov : ℚ
deriving DecidableEq

/-- A row of the `ShotChartDetail` frame: recorded shot distance in feet
(`SHOT_DISTANCE`, an integer column) and the made flag (`SHOT_MADE_FLAG`). -/
structure Shot where
  distance : ℕ
  made : Bool
deriving DecidableEq

/-! ### Shot-distance binning (lines 181-195 of `clutch_player_analysis.py`)

`pd.cut(shot_df['SHOT_DISTANCE'], bins=[0, 3, 10, 16, 23, 40], labels=[...])`
uses right-closed intervals `(0,3], (3,10], (10,16], (16,23], (23,40]`;
a distance of exactly 0 or above 40 falls in no bin (a NaN category). -/

/-- The bin a shot distance falls into, `none` when it falls outside all
five `pd.cut` intervals. -/
def binOf (d : ℕ) : Option (Fin 5) :=
  if d = 0 then none
  else if d ≤ 3 then some 0
  else if d ≤ 10 then some 1
  else if d ≤ 16 then some 2
  else if d ≤ 23 then some 3
  else if d ≤ 40 then some 4
  else none

/-- The `pd.cut` label of a bin. -/
def binLabel (b : Fin 5) : String :=
  if b.val = 0 then "0-3 ft"
  else if b.val = 1 then "3-10 ft"
  else if b.val = 2 then "10-16 ft"
  else if b.val = 3 then "16-23 ft"
  else "23+ ft"

/-- The dictionary key the script builds from a bin label:
`str(idx).lower().replace(' ', '_')`.  The labels are already lower
case, so on the five labels the transformation only replaces the one
space with an underscore; the results are spelled out so that the keys
evaluate by kernel reduction. -/
def binKey (b : Fin 5) : String :=
  if b.val = 0 then "0-3_ft"
  else if b.val = 1 then "3-10_ft"
  else if b.val = 2 then "10-16_ft"
  else if b.val = 3 then "16-23_ft"
  else "23+_ft"

/-- The `FGA` of a bin: the number of shots of the season falling in it
(the `count` aggregation of the `groupby`). -/
def fgaOf (shots : List Shot) (b : Fin 5) : ℕ :=
  (shots.filter (fun s => binOf s.distance = some b)).length

/-- The `FGM` of a bin: the number of made shots falling in it
(the `sum` aggregation of `SHOT_MADE_FLAG`). -/
def fgmOf (shots : List Shot) (b : Fin 5) : ℕ :=
  (shots.filter (fun s => binOf s.distance = some b ∧ s.made)).length

/-- The value `distance_stats['FGA'].sum()`: the number of shots falling in any of
the five bins (shots cut to the NaN category are dropped by `groupby`). -/
def totalBinned (shots : List Shot) : ℕ :=
  (shots.filter (fun s => (binOf s.distance).isSome)).length

/-- The four statistics the script stores for one distance bin. -/
structure BinStats where
  fgm : ℕ
  fga : ℕ
  fg_pct : Option ℚ
  pct_fga : Option ℚ
deriving DecidableEq

/-- The row of `distance_stats` for one bin: `FG_PCT = FGM / FGA`
(NaN when `FGA = 0`) and `FGA_FREQUENCY = FGA / FGA.sum()` (NaN when no
shot fell in any bin). -/
def binStatsOf (shots : List Shot) (b : Fin 5) : BinStats where
  fgm := fgmOf shots b
  fga := fgaOf shots b
  fg_pct := if fgaOf shots b = 0 then none
    else some ((fgmOf shots b : ℚ) / (fgaOf shots b : ℚ))
  pct_fga := if totalBinned shots = 0 then none
    else some ((fgaOf shots b : ℚ) / (totalBinned shots : ℚ))

/-- The record `season_data['shot_distance']`, built only when the shot frame is
non-empty.  The `groupby` is over the `pd.cut` categorical with the
default `observed=False`, so all five categories appear, in category
order, even when no shot fell in some of them. -/
def seasonShotDistance (shots : List Shot) : Option (List (String × BinStats)) :=
  if shots.isEmpty then none
  else some ((List.finRange 5).map (fun b => (binKey b, binStatsOf shots b)))

/-! ### Assist-to-turnover (lines 127-131 and 237) -/

/-- Lines 128-131: the clutch branch of the assist-to-turnover computation. -/
def clutchAstToTov (ast tov : ℚ) : ℚ :=
  if 0 < tov then ast / tov
  else if 0 < ast then ast else 0

/-- Line 237: the regular-season branch of the assist-to-turnover
computation. -/
def regularAstToTov (ast tov : ℚ) : ℚ :=
  if 0 < tov then ast / tov else ast

/-! ### Per-season records of `analyze_clutch_player` -/

/-- The record `season_data['clutch_basic']` (lines 113-131). -/
structure ClutchBasic where
  gp : ℚ
  min : ℚ
  pts : ℚ
  fg_pct : ℚ
  fg3_pct : ℚ
  ft_pct : ℚ
  ast : ℚ
  tov : ℚ
  stl : ℚ
  blk : ℚ
  plus_minus : ℚ
  ast_to_tov : ℚ
deriving DecidableEq

/-- The record `season_data['clutch_advanced']` (lines 148-156). -/
structure ClutchAdvanced where
  usg_pct : ℚ
  ts_pct : ℚ
  net_rating : ℚ
  off_rating : ℚ
  def_rating : ℚ
  ast_pct : Option ℚ
  pie : ℚ
deriving DecidableEq

/-- One side (regular or clutch) of `season_data['regular_vs_clutch']`:
the seven metrics of lines 230-247. -/
structure RvcStats where
  pts : ℚ
  fg_pct : ℚ
  fg3_pct : ℚ
  ft_pct : ℚ
  ast : ℚ
  tov : ℚ
  ast_to_tov : ℚ
deriving DecidableEq

/-- The record `season_data['regular_vs_clutch']` (lines 229-248). -/
structure RvcRec where
  regular : RvcStats
  clutch : RvcStats
deriving DecidableEq

/-- One entry of `results['clutch_stats']`.  Each `Option` field models
the presence or absence of the homonymous key of the `season_data`
dictionary. -/
structure SeasonData where
  season : String
  clutch_basic : Option ClutchBasic
  clutch_advanced : Option ClutchAdvanced
  shot_distance : Option (List (String × BinStats))
  regular_vs_clutch : Option RvcRec
deriving DecidableEq

/-- The per-season fetch outcomes: `none` models the call raising an
exception, `some rows` the returned frame. -/
structure SeasonEnv where
  clutchBase : Option (List ClutchRow)
  clutchAdv : Option (List AdvRow)
  shotChart : Option (List Shot)
  regular : Option (List RegRow)
deriving DecidableEq

/-- Lines 113-131: the `clutch_basic` record of the first matching row. -/
def mkClutchBasic (r : ClutchRow) : ClutchBasic where
  gp := r.gp
  min := r.min
  pts := r.pts
  fg_pct := r.fg_pct
  fg3_pct := r.fg3_pct
  ft_pct := r.ft_pct
  ast := r.ast
  tov := r.tov
  stl := r.stl
  blk := r.blk
  plus_minus := r.plus_minus
  ast_to_tov := clutchAstToTov r.ast r.tov

/-- Lines 148-156: the `clutch_advanced` record. -/
def mkClutchAdvanced (r : AdvRow) : ClutchAdvanced where
  usg_pct := r.usg_pct
  ts_pct := r.ts_pct
  net_rating := r.net_rating
  off_rating := r.off_rating
  def_rating := r.def_rating
  ast_pct := r.ast_pct
  pie := r.pie

/-- Lines 229-248: the `regular_vs_clutch` record built from the
regular-season row, the clutch row and the already computed
`clutch_basic` ratio. -/
def mkRvc (reg : RegRow) (cl : ClutchRow) (basic : ClutchBasic) : RvcRec where
  regular :=
    { pts := reg.pts, fg_pct := reg.fg_pct, fg3_pct := reg.fg3_pct
      ft_pct := reg.ft_pct, ast := reg.ast, tov := reg.tov
      ast_to_tov := regularAstToTov reg.ast reg.tov }
  clutch :=
    { pts := cl.pts, fg_pct := cl.fg_pct, fg3_pct := cl.fg3_pct
      ft_pct := cl.ft_pct, ast := cl.ast, tov := cl.tov
      ast_to_tov := basic.ast_to_tov }

/-- The rows of a frame whose `PLAYER_NAME` equals the requested name
(`df[df['PLAYER_NAME'] == player_name]`). -/
def clutchRowsFor (name : String) (rows : List ClutchRow) : List ClutchRow :=
  rows.filter (fun r => r.player_name == name)

/-- Name filter on the advanced clutch frame. -/
def advRowsFor (name : String) (rows : List AdvRow) : List AdvRow :=
  rows.filter (fun r => r.player_name == name)

/-- Name filter on the regular-season frame. -/
def regRowsFor (name : String) (rows : List RegRow) : List RegRow :=
  rows.filter (fun r => r.player_name == name)

/-- The inner `try` of lines 162-251: shot chart fetch then the
regular-vs-clutch comparison.  An exception in the shot chart fetch
skips both sections; an exception in the regular fetch keeps the shot
data already stored. -/
def innerSection (name : String) (cl : ClutchRow) (basic : ClutchBasic)
    (shotChart : Option (List Shot)) (regular : Option (List RegRow)) :
    Option (List (String × BinStats)) × Option RvcRec :=
  match shotChart with
  | none => (none, none)
  | some shots =>
    let sd := seasonShotDistance shots
    match regular with
    | none => (sd, none)
    | some regRows =>
      match (regRowsFor name regRows).head? with
      | none => (sd, none)
      | some reg => (sd, some (mkRvc reg cl basic))

/-- One iteration of the season loop (lines 91-257).  `none` means the
season contributes no entry to `results['clutch_stats']`: the outer
handler caught an exception (in the base or the advanced clutch fetch),
or the filtered clutch frame was empty (`continue` at line 159). -/
def processSeason (name season : String) (env : SeasonEnv) : Option SeasonData :=
  match env.clutchBase with
  | none => none
  | some rows =>
    match (clutchRowsFor name rows).head? with
    | none => none
    | some cl =>
      let basic := mkClutchBasic cl
      match env.clutchAdv with
      | none => none
      | some advRows =>
        let inner := innerSection name cl basic env.shotChart env.regular
        some { season := season
               clutch_basic := some basic
               clutch_advanced := ((advRowsFor name advRows).head?).map mkClutchAdvanced
               shot_distance := inner.1
               regular_vs_clutch := inner.2 }

/-- The diagnostic messages one iteration of the season loop prints
(the failure prints of lines 158, 251 and 257; the initial
`Processing season` banner and the exception text the f-strings append
after a colon are omitted, the exception being opaque here). -/
def seasonMsgs (name season : String) (env : SeasonEnv) : List String :=
  match env.clutchBase with
  | none => ["Error processing season " ++ season]
  | some rows =>
    match (clutchRowsFor name rows).head? with
    | none => ["No clutch data found for " ++ name ++ " in " ++ season]
    | some _ =>
      match env.clutchAdv with
      | none => ["Error processing season " ++ season]
      | some _ =>
        match env.shotChart with
        | none => ["Error getting shot distance data"]
        | some _ =>
          match env.regular with
          | none => ["Error getting shot distance data"]
          | some _ => []

/-- The list `results['clutch_stats']` over the whole season loop. -/
def clutchStats (name : String) (envs : List (String × SeasonEnv)) : List SeasonData :=
  envs.filterMap (fun p => processSeason name p.1 p.2)

/-! ### Player resolution and the top level of `analyze_clutch_player` -/

/-- A `commonplayerinfo` row projected to the columns read (lines 78-80). -/
structure InfoRow where
  height : String
  weight : String
deriving DecidableEq

/-- The record `results['player_info']` (lines 78-82). -/
structure PlayerInfo where
  height : String
  weight : String
  player_id : ℕ
deriving DecidableEq

/-- Outcome of the name-resolution block (lines 47-71 of
`clutch_player_analysis.py`, lines 34-58 of `compare_net_rating.py`):
the static lookup result and the parsed user selection (`none` models a
non-integer input, the `ValueError` branch). -/
def resolvePlayer (found : List Player) (selection : Option ℤ) : Option ℕ :=
  match found with
  | [] => none
  | [p] => some p.id
  | _ =>
    match selection with
    | none => none
    | some i =>
      if 0 ≤ i ∧ i < (found.length : ℤ) then (found[i.toNat]?).map Player.id
      else none

/-- The diagnostic message the name-resolution block prints when it
fails (lines 49, 64-65 and 67-68 of `clutch_player_analysis.py`, lines
36, 51-52 and 54-55 of `compare_net_rating.py`; the listing of the
multiple matches is omitted): `none` when resolution succeeds. -/
def resolveFailMsg (name : String) (found : List Player) (selection : Option ℤ) :
    Option String :=
  match found with
  | [] => some ("Could not find player ID for " ++ name)
  | [_] => none
  | _ =>
    match selection with
    | none => some "Invalid input. Please enter a number."
    | some i =>
      if 0 ≤ i ∧ i < (found.length : ℤ) then none
      else some ("Invalid selection. Please enter a number between 0 and "
        ++ toString (found.length - 1))

/-- The inputs `analyze_clutch_player` consumes, with every network
outcome made explicit. -/
structure AnalyzeEnv where
  found : List Player
  selection : Option ℤ
  playerInfo : Option (List InfoRow)
  seasonEnvs : List (String × SeasonEnv)
deriving DecidableEq

/-- The `results` dictionary returned by `analyze_clutch_player` (the
`shot_distance` and `regular_vs_clutch` top-level keys of line 40-41 are
initialised to `[]` and never written, and are omitted). -/
structure AnalyzeResults where
  player_name : String
  seasons : List String
  player_info : Option PlayerInfo
  clutch_stats : List SeasonData
deriving DecidableEq

/-- The function `analyze_clutch_player`: resolution failure, an exception in the
info request or an empty info frame return `None`; otherwise the season
loop runs and the results dictionary is returned. -/
def analyze_clutch_player (name : String) (env : AnalyzeEnv) : Option AnalyzeResults :=
  match resolvePlayer env.found env.selection with
  | none => none
  | some pid =>
    match env.playerInfo with
    | none => none
    | some [] => none
    | some (r :: _) =>
      some { player_name := name
             seasons := env.seasonEnvs.map Prod.fst
             player_info := some { height := r.height, weight := r.weight, player_id := pid }
             clutch_stats := clutchStats name env.seasonEnvs }

/-! ### `compare_net_rating` -/

/-- A row of an `Advanced` frame projected to `PLAYER_NAME` and
`NET_RATING`. -/
structure NetSrcRow where
  player_name : String
  net_rating : ℚ
deriving DecidableEq

/-- The three fetch outcomes of one season of `compare_net_rating`. -/
structure NetEnv where
  regular : Option (List NetSrcRow)
  clutch : Option (List NetSrcRow)
  playoffs : Option (List NetSrcRow)
deriving DecidableEq

/-- One row of the returned DataFrame: the season and the three
`NET_RATING` columns (`none` = the `None` stored on an empty frame or
an exception). -/
structure NetRow where
  season : String
  regular : Option ℚ
  clutch : Option ℚ
  playoffs : Option ℚ
deriving DecidableEq

/-- One section of the season loop of `compare_net_rating` (lines
69-125): `None` on exception or when the filtered frame is empty,
otherwise the first matching row's `NET_RATING`. -/
def netVal (name : String) (fetch : Option (List NetSrcRow)) : Option ℚ :=
  match fetch with
  | none => none
  | some rows => ((rows.filter (fun r => r.player_name == name)).head?).map NetSrcRow.net_rating

/-- The `season_data` dictionary one iteration appends (lines 66-128):
all four keys are always set. -/
def netRowOf (name season : String) (env : NetEnv) : NetRow where
  season := season
  regular := netVal name env.regular
  clutch := netVal name env.clutch
  playoffs := netVal name env.playoffs

/-- The diagnostic messages one iteration of the `compare_net_rating`
season loop prints (lines 81, 84, 102, 105, 121 and 124; the exception
text the f-strings append after a colon is omitted). -/
def netMsgs (name season : String) (env : NetEnv) : List String :=
  (match env.regular with
    | none => ["Error getting regular season stats"]
    | some rows =>
      if rows.filter (fun r => r.player_name == name) = [] then
        ["No regular season data found for " ++ name ++ " in " ++ season]
      else []) ++
  (match env.clutch with
    | none => ["Error getting clutch stats"]
    | some rows =>
      if rows.filter (fun r => r.player_name == name) = [] then
        ["No clutch data found for " ++ name ++ " in " ++ season]
      else []) ++
  (match env.playoffs with
    | none => ["Error getting playoff stats"]
    | some rows =>
      if rows.filter (fun r => r.player_name == name) = [] then
        ["No playoff data found for " ++ name ++ " in " ++ season]
      else [])

/-- The function `compare_net_rating`: `None` when the name does not resolve,
otherwise one row per requested season, in order. -/
def compare_net_rating (name : String) (found : List Player) (selection : Option ℤ)
    (envs : List (String × NetEnv)) : Option (List NetRow) :=
  match resolvePlayer found selection with
  | none => none
  | some _ => some (envs.map (fun p => netRowOf name p.1 p.2))

/-! ### Season averages of `visualize_player_analysis` (lines 307-414)
and of `visualize_net_rating_comparison` (line 181) -/

/-- Pointwise sum of two metric records (the per-metric `+=` of lines
321-322). -/
def addStats (a b : RvcStats) : RvcStats where
  pts := a.pts + b.pts
  fg_pct := a.fg_pct + b.fg_pct
  fg3_pct := a.fg3_pct + b.fg3_pct
  ft_pct := a.ft_pct + b.ft_pct
  ast := a.ast + b.ast
  tov := a.tov + b.tov
  ast_to_tov := a.ast_to_tov + b.ast_to_tov

/-- The all-zero metric record (`{m: 0 for m in metrics}`). -/
def zeroStats : RvcStats where
  pts := 0
  fg_pct := 0
  fg3_pct := 0
  ft_pct := 0
  ast := 0
  tov := 0
  ast_to_tov := 0

/-- Pointwise division of a metric record by the season count. -/
def scaleStats (a : RvcStats) (n : ℕ) : RvcStats where
  pts := a.pts / n
  fg_pct := a.fg_pct / n
  fg3_pct := a.fg3_pct / n
  ft_pct := a.ft_pct / n
  ast := a.ast / n
  tov := a.tov / n
  ast_to_tov := a.ast_to_tov / n

/-- The accumulator of lines 313-322: running metric sums for the
regular and clutch sides and the count of seasons having a
`regular_vs_clutch` record. -/
structure RvcAcc where
  regular : RvcStats
  clutch : RvcStats
  count : ℕ
deriving DecidableEq

/-- One iteration of the loop of lines 317-322: seasons without a
`regular_vs_clutch` record are skipped, the others add every metric to
both running sums and bump the count. -/
def rvcStep (acc : RvcAcc) (sd : SeasonData) : RvcAcc :=
  match sd.regular_vs_clutch with
  | none => acc
  | some r =>
    { regular := addStats acc.regular r.regular
      clutch := addStats acc.clutch r.clutch
      count := acc.count + 1 }

/-- The accumulation loop of lines 317-322. -/
def rvcFold (data : List SeasonData) : RvcAcc :=
  data.foldl rvcStep { regular := zeroStats, clutch := zeroStats, count := 0 }

/-- Lines 325-349: the per-metric averages plotted by the
regular-vs-clutch panel, computed only when at least one season has a
comparison record. -/
def regularClutchAvgs (data : List SeasonData) : Option (RvcStats × RvcStats) :=
  let acc := rvcFold data
  if 0 < acc.count then some (scaleStats acc.regular acc.count, scaleStats acc.clutch acc.count)
  else none

/-- NaN-propagating float addition: adding a NaN (`none`) poisons the
sum. -/
def addOpt (a b : Option ℚ) : Option ℚ :=
  match a, b with
  | some x, some y => some (x + y)
  | _, _ => none

/-- The `season_data['shot_distance']` entry a season holds for a given
distance key, `none` when the season has no `shot_distance` record or
its dictionary lacks the key. -/
def binEntry (sd : SeasonData) (key : String) : Option BinStats :=
  sd.shot_distance.bind (fun l => l.lookup key)

/-- The `distance_data[distance]` accumulator of lines 378-386. -/
structure DistAcc where
  pct_fga : Option ℚ
  fg_pct : ℚ
  count : ℕ
  fga : ℕ
deriving DecidableEq

/-- One iteration of the loop of lines 374-386, viewed for one distance
key: `pct_fga` is summed unguarded (a stored NaN poisons it), `fg_pct`
and `fga` only for seasons whose bin has a positive attempt count, and
`count` for every season whose dictionary holds the key. -/
def distStep (key : String) (acc : DistAcc) (sd : SeasonData) : DistAcc :=
  match binEntry sd key with
  | none => acc
  | some st =>
    { pct_fga := addOpt acc.pct_fga st.pct_fga
      fg_pct := if 0 < st.fga then acc.fg_pct + st.fg_pct.getD 0 else acc.fg_pct
      count := acc.count + 1
      fga := if 0 < st.fga then acc.fga + st.fga else acc.fga }

/-- The accumulation loop of lines 374-386 for one distance key. -/
def distFold (data : List SeasonData) (key : String) : DistAcc :=
  data.foldl (distStep key) { pct_fga := some 0, fg_pct := 0, count := 0, fga := 0 }

/-- Line 397: the plotted `% of FGA` average for one distance key
(`stats['pct_fga'] / stats['count']`, for keys with a positive count). -/
def distPctFgaAvg (data : List SeasonData) (key : String) : Option ℚ :=
  let acc := distFold data key
  if 0 < acc.count then acc.pct_fga.map (fun s => s / (acc.count : ℚ)) else none

/-- Lines 398-403: the plotted `FG%` average for one distance key:
`stats['fg_pct'] / stats['count']` when the accumulated attempts are
positive, `None` otherwise. -/
def distFgPctAvg (data : List SeasonData) (key : String) : Option ℚ :=
  let acc := distFold data key
  if 0 < acc.count then
    if 0 < acc.fga then some (acc.fg_pct / (acc.count : ℚ)) else none
  else none

/-- The pandas `Series.mean()` with the default `skipna=True`, as used by
`df[['Regular Season', 'Clutch', 'Playoffs']].mean()` (line 181 of
`compare_net_rating.py`): the mean of the non-null values, NaN when
every value is null. -/
def colMean (col : List (Option ℚ)) : Option ℚ :=
  let vals := col.filterMap id
  if vals.isEmpty then none else some (vals.sum / (vals.length : ℚ))

/-- The three printed average `NET_RATING` values. -/
def netAverages (rows : List NetRow) : Option ℚ × Option ℚ × Option ℚ :=
  (colMean (rows.map NetRow.regular),
   colMean (rows.map NetRow.clutch),
   colMean (rows.map NetRow.playoffs))

/-! ### Specification-side expressions

The following definitions formalise the spec's wording ("divide only by
the count of seasons that actually contributed data to that sum"), to
be compared with the code-side folds above. -/

/-- NaN-propagating sum of a list of float values. -/
def optSum (l : List (Option ℚ)) : Option ℚ :=
  l.foldr addOpt (some 0)

/-- Pointwise sum of a list of metric records. -/
def sumStats (l : List RvcStats) : RvcStats :=
  l.foldr addStats zeroStats

/-- The comparison records of the seasons that have one, in order. -/
def rvcRecords (data : List SeasonData) : List RvcRec :=
  data.filterMap (fun sd => sd.regular_vs_clutch)

/-- The bin statistics, for one distance key, of the seasons whose
shot-distance dictionary holds that key, in order. -/
def binRecords (data : List SeasonData) (key : String) : List BinStats :=
  data.filterMap (fun sd => binEntry sd key)

/-- The `fg_pct` sum a bin's seasons actually contribute: only seasons
with a positive attempt count in the bin add to it. -/
def specBinFgPctSum (data : List SeasonData) (key : String) : ℚ :=
  (((binRecords data key).filter (fun st => decide (0 < st.fga))).map
    (fun st => st.fg_pct.getD 0)).sum

/-- The accumulated attempts of a bin over the seasons with a positive
attempt count. -/
def specBinFgaSum (data : List SeasonData) (key : String) : ℕ :=
  (((binRecords data key).filter (fun st => decide (0 < st.fga))).map
    (fun st => st.fga)).sum

/-- The number of seasons that contribute data to a bin's `fg_pct` sum
(the denominator the spec asserts for that average). -/
def binContribCount (data : List SeasonData) (key : String) : ℕ :=
  ((binRecords data key).filter (fun st => decide (0 < st.fga))).length

/-- The sum of the five stored `pct_fga` values of a season's
shot-distance record (NaN-propagating, like the float sum). -/
def pctFgaSum (shots : List Shot) : Option ℚ :=
  optSum ((List.finRange 5).map (fun b => (binStatsOf shots b).pct_fga))

/-! ### Concrete data for the counterexamples, produced by the embedded
pipeline itself -/

/-- A clutch frame row matching player `"P"`. -/
def exClutchRow : ClutchRow :=
  { player_name := "P", gp := 1, min := 1, pts := 1, fg_pct := 1, fg3_pct := 1
    ft_pct := 1, ast := 1, tov := 1, stl := 1, blk := 1, plus_minus := 1 }

/-- A season whose only clutch shot is a made shot from 1 ft. -/
def exEnvA : SeasonEnv :=
  { clutchBase := some [exClutchRow], clutchAdv := some []
    shotChart := some [{ distance := 1, made := true }], regular := some [] }

/-- A season whose only clutch shot is a missed shot from 25 ft: its
`0-3_ft` bin is stored with zero attempts. -/
def exEnvB : SeasonEnv :=
  { clutchBase := some [exClutchRow], clutchAdv := some []
    shotChart := some [{ distance := 25, made := false }], regular := some [] }

/-- Two seasons of results as `analyze_clutch_player` builds them. -/
def exData : List SeasonData :=
  clutchStats "P" [("2020-21", exEnvA), ("2021-22", exEnvB)]

/-- An advanced clutch frame row matching player `"P"`. -/
def exAdvRow : AdvRow :=
  { player_name := "P", usg_pct := 1, ts_pct := 1, net_rating := 1
    off_rating := 1, def_rating := 1, ast_pct := some 1, pie := 1 }

/-- A regular-season frame row matching player `"P"`. -/
def exRegRow : RegRow :=
  { player_name := "P", pts := 1, fg_pct := 1, fg3_pct := 1, ft_pct := 1, ast := 1, tov := 1 }

/-- A season whose four fetches all succeed with matching data. -/
def exEnvFull : SeasonEnv :=
  { clutchBase := some [exClutchRow], clutchAdv := some [exAdvRow]
    shotChart := some [{ distance := 1, made := true }], regular := some [exRegRow] }

/-- The season record `processSeason` builds from `exEnvFull`. -/
def exSeasonData : SeasonData :=
  { season := "2023-24"
    clutch_basic := some (mkClutchBasic exClutchRow)
    clutch_advanced := some (mkClutchAdvanced exAdvRow)
    shot_distance := seasonShotDistance [{ distance := 1, made := true }]
    regular_vs_clutch := some (mkRvc exRegRow exClutchRow (mkClutchBasic exClutchRow)) }

/-- A season whose base clutch fetch raises. -/
def exEnvFail : SeasonEnv :=
  { clutchBase := none, clutchAdv := none, shotChart := none, regular := none }

/-- A season whose clutch fetches succeed but whose shot-chart fetch
raises. -/
def exEnvShotFail : SeasonEnv :=
  { clutchBase := some [exClutchRow], clutchAdv := some []
    shotChart := none, regular := none }

/-- A season whose base clutch fetch succeeds but whose advanced clutch
fetch raises. -/
def exEnvAdvFail : SeasonEnv :=
  { clutchBase := some [exClutchRow], clutchAdv := none
    shotChart := none, regular := none }

/-- A season whose clutch and shot-chart fetches succeed but whose
regular-season fetch raises. -/
def exEnvRegFetchFail : SeasonEnv :=
  { clutchBase := some [exClutchRow], clutchAdv := some []
    shotChart := some [{ distance := 1, made := true }], regular := none }

/-- A `compare_net_rating` season whose regular fetch raises. -/
def exNetEnvRegFail : NetEnv :=
  { regular := none, clutch := some [{ player_name := "P", net_rating := 5 }], playoffs := none }

/-- A `compare_net_rating` season whose three fetches all raise. -/
def exNetEnvAllFail : NetEnv :=
  { regular := none, clutch := none, playoffs := none }

/-! ## Theorems -/

/-- Claim C3: for every season record with a zero turnover count, the
computed assist-to-turnover value equals the raw assist count, in the
clutch branch as in the regular-season branch. -/
theorem c3_ast_tov_zero_turnovers (ast tov : ℚ) (hast : 0 ≤ ast) (htov : tov = 0) :
    clutchAstToTov ast tov = ast ∧ regularAstToTov ast tov = ast := by
  subst htov
  unfold clutchAstToTov regularAstToTov
  rw [if_neg (lt_irrefl 0), if_neg (lt_irrefl 0)]
  rcases eq_or_lt_of_le hast with h | h
  · rw [if_neg (by rw [← h]; exact lt_irrefl 0), ← h]
    exact ⟨rfl, rfl⟩
  · rw [if_pos h]
    exact ⟨rfl, rfl⟩

/-- Witness for C3 at `ast = 0`, `tov = 0` (the branch the claim's edge
case exercises). -/
theorem c3_ast_tov_zero_turnovers_witness :
    clutchAstToTov 0 0 = 0 ∧ regularAstToTov 0 0 = 0 :=
  c3_ast_tov_zero_turnovers 0 0 le_rfl rfl

/-- Claim C9: on non-negative assist and turnover counts the clutch
branch and the regular-season branch of the assist-to-turnover
computation agree. -/
theorem c9_ast_tov_branches_agree (ast tov : ℚ) (hast : 0 ≤ ast) (_htov : 0 ≤ tov) :
    clutchAstToTov ast tov = regularAstToTov ast tov := by
  unfold clutchAstToTov regularAstToTov
  split_ifs with h1 h2
  · rfl
  · rfl
  · push_neg at h2
    exact (le_antisymm h2 hast).symm

/-- Witness for C9 at `ast = 3`, `tov = 0`. -/
theorem c9_ast_tov_branches_agree_witness :
    clutchAstToTov 3 0 = regularAstToTov 3 0 :=
  c9_ast_tov_branches_agree 3 0 (by norm_num) le_rfl

/-- Claim C8: a shot recorded at exactly 0 ft or strictly beyond 40 ft
falls in none of the five bins, and adding such a shot to a season
changes no bin's attempt or make count, nor the total attempt count
used as the frequency denominator, nor any stored bin statistic. -/
theorem c8_out_of_range_shots_excluded (d : ℕ) (hd : d = 0 ∨ 40 < d) :
    binOf d = none ∧
    ∀ (made : Bool) (shots : List Shot) (b : Fin 5),
      fgaOf ({ distance := d, made := made } :: shots) b = fgaOf shots b ∧
      fgmOf ({ distance := d, made := made } :: shots) b = fgmOf shots b ∧
      totalBinned ({ distance := d, made := made } :: shots) = totalBinned shots ∧
      binStatsOf ({ distance := d, made := made } :: shots) b = binStatsOf shots b := by
  have hb : binOf d = none := by
    unfold binOf
    rcases hd with h | h
    · rw [if_pos h]
    · rw [if_neg (by omega), if_neg (by omega), if_neg (by omega), if_neg (by omega),
        if_neg (by omega), if_neg (by omega)]
  refine ⟨hb, fun made shots b => ?_⟩
  have h1 : fgaOf ({ distance := d, made := made } :: shots) b = fgaOf shots b := by
    simp [fgaOf, List.filter_cons, hb]
  have h2 : fgmOf ({ distance := d, made := made } :: shots) b = fgmOf shots b := by
    simp [fgmOf, List.filter_cons, hb]
  have h3 : totalBinned ({ distance := d, made := made } :: shots) = totalBinned shots := by
    simp [totalBinned, List.filter_cons, hb]
  exact ⟨h1, h2, h3, by simp [binStatsOf, h1, h2, h3]⟩

/-- Witness for C8 at distance 41 (and, for the bin statistics, the
singleton season of a made 1 ft shot). -/
theorem c8_out_of_range_shots_excluded_witness :
    binOf 41 = none ∧
    fgaOf [{ distance := 41, made := true }, { distance := 1, made := true }] 0
      = fgaOf [{ distance := 1, made := true }] 0 :=
  ⟨(c8_out_of_range_shots_excluded 41 (Or.inr (by norm_num))).1,
   ((c8_out_of_range_shots_excluded 41 (Or.inr (by norm_num))).2 true
     [{ distance := 1, made := true }] 0).1⟩

/-- Claim C6: a season whose shot-chart fetch returns a non-empty frame
stores shot-distance statistics for exactly the five fixed bins, in
order, each bin carrying its makes, attempts, shooting percentage and
attempt-frequency fields. -/
theorem c6_five_bins_stored (shots : List Shot) (h : shots ≠ []) :
    ∃ l, seasonShotDistance shots = some l ∧
      l.map Prod.fst = ["0-3_ft", "3-10_ft", "10-16_ft", "16-23_ft", "23+_ft"] ∧
      l.length = 5 ∧
      ∀ b : Fin 5, l.lookup (binKey b) = some (binStatsOf shots b) := by
  refine ⟨(List.finRange 5).map (fun b => (binKey b, binStatsOf shots b)), ?_, ?_, ?_, ?_⟩
  · rw [seasonShotDistance, if_neg (by simpa [List.isEmpty_iff] using h)]
  · rfl
  · rfl
  · intro b
    fin_cases b <;> rfl

/-- Witness for C6 on the singleton season of a made 1 ft shot. -/
theorem c6_five_bins_stored_witness :
    ∃ l, seasonShotDistance [{ distance := 1, made := true }] = some l ∧
      l.map Prod.fst = ["0-3_ft", "3-10_ft", "10-16_ft", "16-23_ft", "23+_ft"] ∧
      l.length = 5 ∧
      ∀ b : Fin 5, l.lookup (binKey b) = some (binStatsOf [{ distance := 1, made := true }] b) :=
  c6_five_bins_stored [{ distance := 1, made := true }] (by simp)

/-- Every shot that falls in a bin falls in exactly one: the five bin
attempt counts partition the binned shots. -/
theorem sum_fgaOf (shots : List Shot) :
    fgaOf shots 0 + fgaOf shots 1 + fgaOf shots 2 + fgaOf shots 3 + fgaOf shots 4
      = totalBinned shots := by
  induction shots with
  | nil => rfl
  | cons x l ih =>
    unfold fgaOf totalBinned at *
    rcases h : binOf x.distance with _ | b
    · simpa [List.filter_cons, h] using ih
    · fin_cases b <;> simp [List.filter_cons, h] <;> omega

/-- Adding to a plain zero on the left is the identity of `addOpt`. -/
theorem addOpt_zero_left (x : Option ℚ) : addOpt (some 0) x = x := by
  cases x <;> simp [addOpt]

/-- Claim C1 (amended): for every set of fetched shots at least one of
which falls inside the binned range `(0, 40]` ft, the five stored
`pct_fga` values sum to 1. -/
theorem c1_pct_fga_sums_to_one (shots : List Shot) (h : 0 < totalBinned shots) :
    pctFgaSum shots = some 1 := by
  have hT : totalBinned shots ≠ 0 := Nat.pos_iff_ne_zero.mp h
  have hTq : (totalBinned shots : ℚ) ≠ 0 := Nat.cast_ne_zero.mpr hT
  have hfr : List.finRange 5 = [0, 1, 2, 3, 4] := rfl
  unfold pctFgaSum optSum
  rw [hfr]
  simp only [List.map_cons, List.map_nil, List.foldr_cons, List.foldr_nil,
    binStatsOf, if_neg hT]
  simp only [addOpt]
  congr 1
  have hs := sum_fgaOf shots
  have hsq : (fgaOf shots 0 : ℚ) + fgaOf shots 1 + fgaOf shots 2 + fgaOf shots 3
      + fgaOf shots 4 = (totalBinned shots : ℚ) := by exact_mod_cast hs
  field_simp
  linarith [hsq]

/-- Witness for C1 on two shots, one binned and one made from 1 ft. -/
theorem c1_pct_fga_sums_to_one_witness :
    0 < totalBinned [{ distance := 1, made := true }, { distance := 25, made := false }] ∧
    pctFgaSum [{ distance := 1, made := true }, { distance := 25, made := false }] = some 1 :=
  ⟨by decide,
   c1_pct_fga_sums_to_one [{ distance := 1, made := true }, { distance := 25, made := false }]
     (by decide)⟩

/-- Counterexample to C1 as stated: a non-empty shot set whose only
shot is recorded at 0 ft leaves every bin empty, the frequency
denominator is `0/0` (NaN) and the stored `pct_fga` values do not sum
to 1. -/
theorem c1_counterexample :
    ([{ distance := 0, made := true }] : List Shot) ≠ [] ∧
    pctFgaSum [{ distance := 0, made := true }] = none ∧
    pctFgaSum [{ distance := 0, made := true }] ≠ some 1 := by
  refine ⟨by simp, by decide, by decide⟩

/-- Associativity of `addStats`. -/
theorem addStats_assoc (a b c : RvcStats) :
    addStats (addStats a b) c = addStats a (addStats b c) := by
  simp [addStats, add_assoc]

/-- The record `zeroStats` is a right identity of `addStats`. -/
theorem addStats_zero (a : RvcStats) : addStats a zeroStats = a := by
  simp [addStats, zeroStats]

/-- Associativity of `addOpt`. -/
theorem addOpt_assoc (a b c : Option ℚ) :
    addOpt (addOpt a b) c = addOpt a (addOpt b c) := by
  cases a <;> cases b <;> cases c <;> simp [addOpt, add_assoc]

/-- A plain `some 0` is a right identity of `addOpt`. -/
theorem addOpt_zero_right (a : Option ℚ) : addOpt a (some 0) = a := by
  cases a <;> simp [addOpt]

/-- The loop of lines 317-322, started from any accumulator, adds the
metric sums and the count of exactly the seasons holding a comparison
record. -/
theorem rvcFold_from (data : List SeasonData) (acc : RvcAcc) :
    data.foldl rvcStep acc =
      { regular := addStats acc.regular (sumStats ((rvcRecords data).map RvcRec.regular))
        clutch := addStats acc.clutch (sumStats ((rvcRecords data).map RvcRec.clutch))
        count := acc.count + (rvcRecords data).length } := by
  induction data generalizing acc with
  | nil => simp [rvcRecords, sumStats, addStats_zero]
  | cons sd rest ih =>
    rcases hr : sd.regular_vs_clutch with _ | r
    · rw [List.foldl_cons]
      rw [show rvcStep acc sd = acc from by rw [rvcStep, hr]]
      rw [ih acc]
      simp [rvcRecords, hr]
    · rw [List.foldl_cons]
      rw [show rvcStep acc sd =
        { regular := addStats acc.regular r.regular
          clutch := addStats acc.clutch r.clutch
          count := acc.count + 1 } from by rw [rvcStep, hr]]
      rw [ih]
      simp only [rvcRecords, List.filterMap_cons, hr]
      simp [sumStats, addStats_assoc, Nat.add_assoc, Nat.add_comm 1]

/-- The loop of lines 374-386 for one key, started from any
accumulator: `count` grows by the number of seasons holding the key,
`fg_pct` and `fga` by the sums over the seasons with positive attempts
in the bin, and `pct_fga` by the NaN-propagating sum over all seasons
holding the key. -/
theorem distFold_from (key : String) (data : List SeasonData) (acc : DistAcc) :
    data.foldl (distStep key) acc =
      { pct_fga := addOpt acc.pct_fga (optSum ((binRecords data key).map BinStats.pct_fga))
        fg_pct := acc.fg_pct + specBinFgPctSum data key
        count := acc.count + (binRecords data key).length
        fga := acc.fga + specBinFgaSum data key } := by
  induction data generalizing acc with
  | nil =>
    simp [binRecords, optSum, specBinFgPctSum, specBinFgaSum, addOpt_zero_right]
  | cons sd rest ih =>
    rcases hb : binEntry sd key with _ | st
    · rw [List.foldl_cons]
      rw [show distStep key acc sd = acc from by rw [distStep, hb]]
      rw [ih acc]
      simp [binRecords, specBinFgPctSum, specBinFgaSum, hb]
    · rw [List.foldl_cons]
      rw [show distStep key acc sd =
        { pct_fga := addOpt acc.pct_fga st.pct_fga
          fg_pct := if 0 < st.fga then acc.fg_pct + st.fg_pct.getD 0 else acc.fg_pct
          count := acc.count + 1
          fga := if 0 < st.fga then acc.fga + st.fga else acc.fga } from by rw [distStep, hb]]
      rw [ih]
      simp only [binRecords, specBinFgPctSum, specBinFgaSum, List.filterMap_cons, hb,
        List.map_cons, optSum, List.foldr_cons, DistAcc.mk.injEq, List.length_cons]
      refine ⟨by rw [← addOpt_assoc], ?_, by omega, ?_⟩
      · by_cases hfga : 0 < st.fga <;>
          simp [List.filter_cons, hfga, add_assoc, add_comm, add_left_comm]
      · by_cases hfga : 0 < st.fga <;> (simp [List.filter_cons, hfga]; try omega)

/-- The record `zeroStats` is a left identity of `addStats`. -/
theorem addStats_zero_left (a : RvcStats) : addStats zeroStats a = a := by
  simp [addStats, zeroStats]

/-- Claim C2 (amended): the regular-vs-clutch averages divide the sums
over seasons holding a comparison record by the count of those seasons;
the per-bin `pct_fga` average divides the (NaN-propagating) sum over
seasons storing the bin by the count of those seasons; the per-bin
`fg_pct` average divides the sum over the seasons with positive
attempts in the bin by the count of ALL seasons storing the bin; and
the `NET_RATING` column means ignore null entries. -/
theorem c2_average_denominators :
    (∀ data : List SeasonData,
      regularClutchAvgs data =
        if 0 < (rvcRecords data).length then
          some (scaleStats (sumStats ((rvcRecords data).map RvcRec.regular))
                  (rvcRecords data).length,
                scaleStats (sumStats ((rvcRecords data).map RvcRec.clutch))
                  (rvcRecords data).length)
        else none) ∧
    (∀ (data : List SeasonData) (key : String),
      distPctFgaAvg data key =
        if 0 < (binRecords data key).length then
          (optSum ((binRecords data key).map BinStats.pct_fga)).map
            (fun q => q / ((binRecords data key).length : ℚ))
        else none) ∧
    (∀ (data : List SeasonData) (key : String),
      distFgPctAvg data key =
        if 0 < (binRecords data key).length then
          if 0 < specBinFgaSum data key then
            some (specBinFgPctSum data key / ((binRecords data key).length : ℚ))
          else none
        else none) ∧
    (∀ (rows : List NetRow) (s : String),
      netAverages ({ season := s, regular := none, clutch := none, playoffs := none } :: rows)
        = netAverages rows) := by
  refine ⟨fun data => ?_, fun data key => ?_, fun data key => ?_, fun rows s => ?_⟩
  · rw [regularClutchAvgs, rvcFold, rvcFold_from]
    simp [addStats_zero_left]
  · rw [distPctFgaAvg, distFold, distFold_from]
    simp [addOpt_zero_left]
  · rw [distFgPctAvg, distFold, distFold_from]
    simp
  · simp [netAverages, colMean]

/-- Counterexample to C2 as stated: on the two pipeline-built seasons
of `exData` the `0-3_ft` bin receives `fg_pct` data from one season
only (the second stores the bin with zero attempts), yet the plotted
average divides by 2, the count of all seasons storing the bin, so it
is 1/2 and not the sum divided by the contributing count, which is 1. -/
theorem c2_counterexample :
    distFgPctAvg exData "0-3_ft" = some (1 / 2) ∧
    binContribCount exData "0-3_ft" = 1 ∧
    specBinFgPctSum exData "0-3_ft" = 1 ∧
    specBinFgPctSum exData "0-3_ft" / (binContribCount exData "0-3_ft" : ℚ) = 1 ∧
    distFgPctAvg exData "0-3_ft" ≠
      some (specBinFgPctSum exData "0-3_ft" / (binContribCount exData "0-3_ft" : ℚ)) := by
  norm_num [exData, clutchStats, processSeason, innerSection, seasonShotDistance,
    binStatsOf, fgaOf, fgmOf, totalBinned, binOf, clutchRowsFor, regRowsFor, advRowsFor,
    mkClutchBasic, mkClutchAdvanced, mkRvc, distFgPctAvg, distFold, distStep,
    binContribCount, specBinFgPctSum, binRecords, binEntry,
    List.lookup, binKey, exEnvA, exEnvB, exClutchRow, List.filterMap, List.filter,
    show (4 : Fin 5) ≠ 0 from by decide]

/-- Claim C4: in every per-season record and every `compare_net_rating`
row, a stats field carries data only if the corresponding API call
returned a non-empty (filtered) result: `clutch_basic` requires a
matching base clutch row, `clutch_advanced` a matching advanced row,
`shot_distance` a non-empty shot frame, `regular_vs_clutch` a matching
regular-season row, and each `NET_RATING` column a matching row of its
fetch. -/
theorem c4_fields_only_if_nonempty (name season : String) (env : SeasonEnv) (sd : SeasonData)
    (hp : processSeason name season env = some sd) :
    (sd.clutch_basic.isSome ∧
      ∃ rows, env.clutchBase = some rows ∧ clutchRowsFor name rows ≠ []) ∧
    (sd.clutch_advanced.isSome →
      ∃ rows, env.clutchAdv = some rows ∧ advRowsFor name rows ≠ []) ∧
    (sd.shot_distance.isSome →
      ∃ shots, env.shotChart = some shots ∧ shots ≠ []) ∧
    (sd.regular_vs_clutch.isSome →
      ∃ rows, env.regular = some rows ∧ regRowsFor name rows ≠ []) ∧
    (∀ (s : String) (e : NetEnv),
      ((netRowOf name s e).regular.isSome →
        ∃ rows, e.regular = some rows ∧ rows.filter (fun r => r.player_name == name) ≠ []) ∧
      ((netRowOf name s e).clutch.isSome →
        ∃ rows, e.clutch = some rows ∧ rows.filter (fun r => r.player_name == name) ≠ []) ∧
      ((netRowOf name s e).playoffs.isSome →
        ∃ rows, e.playoffs = some rows ∧ rows.filter (fun r => r.player_name == name) ≠ [])) := by
  have hnet : ∀ (flds : Option (List NetSrcRow)),
      (netVal name flds).isSome →
        ∃ rows, flds = some rows ∧ rows.filter (fun r => r.player_name == name) ≠ [] := by
    intro flds hs
    rcases hf : flds with _ | rows
    · rw [hf] at hs; simp [netVal] at hs
    · refine ⟨rows, rfl, fun hnil => ?_⟩
      rw [hf] at hs
      simp [netVal, hnil] at hs
  rcases hcb : env.clutchBase with _ | rows
  · simp [processSeason, hcb] at hp
  rcases hhd : (clutchRowsFor name rows).head? with _ | cl
  · simp [processSeason, hcb, hhd] at hp
  rcases hadv : env.clutchAdv with _ | advRows
  · simp [processSeason, hcb, hhd, hadv] at hp
  have hsd : sd =
      { season := season
        clutch_basic := some (mkClutchBasic cl)
        clutch_advanced := ((advRowsFor name advRows).head?).map mkClutchAdvanced
        shot_distance := (innerSection name cl (mkClutchBasic cl) env.shotChart env.regular).1
        regular_vs_clutch :=
          (innerSection name cl (mkClutchBasic cl) env.shotChart env.regular).2 } := by
    simp only [processSeason, hcb, hhd, hadv, Option.some.injEq] at hp
    exact hp.symm
  subst hsd
  refine ⟨⟨rfl, rows, rfl, fun hnil => by simp [hnil] at hhd⟩, ?_, ?_, ?_, ?_⟩
  · intro hs
    rcases hah : (advRowsFor name advRows).head? with _ | adv
    · rw [hah] at hs; simp at hs
    · exact ⟨advRows, rfl, fun hnil => by simp [hnil] at hah⟩
  · intro hs
    rcases hsc : env.shotChart with _ | shots
    · rw [hsc] at hs; simp [innerSection] at hs
    · refine ⟨shots, rfl, fun hnil => ?_⟩
      rw [hsc] at hs
      subst hnil
      rcases hr : env.regular with _ | regRows
      · simp [innerSection, seasonShotDistance, hr] at hs
      · simp [innerSection, seasonShotDistance, hr] at hs
        rcases hrh : (regRowsFor name regRows).head? with _ | reg <;>
          rw [hrh] at hs <;> simp at hs
  · intro hs
    rcases hsc : env.shotChart with _ | shots
    · rw [hsc] at hs; simp [innerSection] at hs
    rcases hr : env.regular with _ | regRows
    · rw [hsc, hr] at hs; simp [innerSection] at hs
    rcases hrh : (regRowsFor name regRows).head? with _ | reg
    · rw [hsc, hr] at hs; simp [innerSection, hrh] at hs
    · exact ⟨regRows, rfl, fun hnil => by simp [hnil] at hrh⟩
  · intro s e
    exact ⟨hnet e.regular, hnet e.clutch, hnet e.playoffs⟩

/-- Witness for C4 on a season whose four fetches all succeed with
matching rows. -/
theorem c4_fields_only_if_nonempty_witness :
    ∃ rows, exEnvFull.clutchBase = some rows ∧ clutchRowsFor "P" rows ≠ [] :=
  ((c4_fields_only_if_nonempty "P" "2023-24" exEnvFull exSeasonData rfl).1).2

/-- Claim C5, covering every network call of both scripts: an
exception in the base or the advanced clutch fetch drops only that
season (the seasons around it are processed unchanged) and prints the
season's error message; an exception in the shot-chart fetch keeps the
season with its clutch fields and only the shot and comparison sections
missing; an exception in the regular-season fetch keeps the season with
its clutch fields and shot data and only the comparison section
missing, each printing the section's message; and in
`compare_net_rating` a failed regular, clutch or playoff fetch nulls
only its own column, the row still carrying the other sections, with
the section's message printed.  No failure escapes: every outcome is an
ordinary return value. -/
theorem c5_failures_isolated (name s : String) (pre post : List (String × SeasonEnv))
    (env : SeasonEnv) :
    (env.clutchBase = none →
      processSeason name s env = none ∧
      clutchStats name (pre ++ (s, env) :: post) = clutchStats name (pre ++ post) ∧
      seasonMsgs name s env = ["Error processing season " ++ s]) ∧
    (∀ rows cl, env.clutchBase = some rows →
      (clutchRowsFor name rows).head? = some cl →
      env.clutchAdv = none →
      processSeason name s env = none ∧
      clutchStats name (pre ++ (s, env) :: post) = clutchStats name (pre ++ post) ∧
      seasonMsgs name s env = ["Error processing season " ++ s]) ∧
    (∀ rows cl advRows, env.clutchBase = some rows →
      (clutchRowsFor name rows).head? = some cl →
      env.clutchAdv = some advRows →
      env.shotChart = none →
      processSeason name s env =
        some { season := s
               clutch_basic := some (mkClutchBasic cl)
               clutch_advanced := ((advRowsFor name advRows).head?).map mkClutchAdvanced
               shot_distance := none
               regular_vs_clutch := none } ∧
      seasonMsgs name s env = ["Error getting shot distance data"]) ∧
    (∀ rows cl advRows shots, env.clutchBase = some rows →
      (clutchRowsFor name rows).head? = some cl →
      env.clutchAdv = some advRows →
      env.shotChart = some shots →
      env.regular = none →
      processSeason name s env =
        some { season := s
               clutch_basic := some (mkClutchBasic cl)
               clutch_advanced := ((advRowsFor name advRows).head?).map mkClutchAdvanced
               shot_distance := seasonShotDistance shots
               regular_vs_clutch := none } ∧
      seasonMsgs name s env = ["Error getting shot distance data"]) ∧
    (∀ e : NetEnv, e.regular = none →
      netRowOf name s e =
        { season := s, regular := none
          clutch := netVal name e.clutch, playoffs := netVal name e.playoffs } ∧
      "Error getting regular season stats" ∈ netMsgs name s e) ∧
    (∀ e : NetEnv, e.clutch = none →
      netRowOf name s e =
        { season := s, regular := netVal name e.regular
          clutch := none, playoffs := netVal name e.playoffs } ∧
      "Error getting clutch stats" ∈ netMsgs name s e) ∧
    (∀ e : NetEnv, e.playoffs = none →
      netRowOf name s e =
        { season := s, regular := netVal name e.regular
          clutch := netVal name e.clutch, playoffs := none } ∧
      "Error getting playoff stats" ∈ netMsgs name s e) := by
  refine ⟨fun h => ?_, fun rows cl h1 h2 h3 => ?_, fun rows cl advRows h1 h2 h3 h4 => ?_,
    fun rows cl advRows shots h1 h2 h3 h4 h5 => ?_,
    fun e he => ?_, fun e he => ?_, fun e he => ?_⟩
  · have hps : processSeason name s env = none := by simp [processSeason, h]
    refine ⟨hps, ?_, by simp [seasonMsgs, h]⟩
    simp [clutchStats, List.filterMap_append, List.filterMap_cons, hps]
  · have hps : processSeason name s env = none := by simp [processSeason, h1, h2, h3]
    refine ⟨hps, ?_, by simp [seasonMsgs, h1, h2, h3]⟩
    simp [clutchStats, List.filterMap_append, List.filterMap_cons, hps]
  · constructor
    · simp only [processSeason, h1, h2, h3, innerSection, h4]
    · simp [seasonMsgs, h1, h2, h3, h4]
  · constructor
    · simp only [processSeason, h1, h2, h3, innerSection, h4, h5]
    · simp [seasonMsgs, h1, h2, h3, h4, h5]
  · constructor
    · simp only [netRowOf, he]
      simp [netVal]
    · simp [netMsgs, he]
  · constructor
    · simp only [netRowOf, he]
      simp [netVal]
    · simp [netMsgs, he]
  · constructor
    · simp only [netRowOf, he]
      simp [netVal]
    · simp [netMsgs, he]

/-- Witness for C5 at concrete data for each of the seven failure
sites: base clutch, advanced clutch, shot chart and regular-season
fetches of `analyze_clutch_player`, and the regular, clutch and playoff
fetches of `compare_net_rating`. -/
theorem c5_failures_isolated_witness :
    (processSeason "P" "2022-23" exEnvFail = none ∧
      seasonMsgs "P" "2022-23" exEnvFail = ["Error processing season 2022-23"]) ∧
    (processSeason "P" "2022-23" exEnvAdvFail = none ∧
      seasonMsgs "P" "2022-23" exEnvAdvFail = ["Error processing season 2022-23"]) ∧
    (processSeason "P" "2022-23" exEnvShotFail =
      some { season := "2022-23"
             clutch_basic := some (mkClutchBasic exClutchRow)
             clutch_advanced := none
             shot_distance := none
             regular_vs_clutch := none } ∧
      seasonMsgs "P" "2022-23" exEnvShotFail = ["Error getting shot distance data"]) ∧
    (processSeason "P" "2022-23" exEnvRegFetchFail =
      some { season := "2022-23"
             clutch_basic := some (mkClutchBasic exClutchRow)
             clutch_advanced := none
             shot_distance := seasonShotDistance [{ distance := 1, made := true }]
             regular_vs_clutch := none } ∧
      seasonMsgs "P" "2022-23" exEnvRegFetchFail = ["Error getting shot distance data"]) ∧
    (netRowOf "P" "2022-23" exNetEnvRegFail =
      { season := "2022-23", regular := none
        clutch := netVal "P" (some [{ player_name := "P", net_rating := 5 }])
        playoffs := none } ∧
      "Error getting regular season stats" ∈ netMsgs "P" "2022-23" exNetEnvRegFail) ∧
    (netRowOf "P" "2022-23" exNetEnvAllFail =
      { season := "2022-23", regular := none, clutch := none, playoffs := none } ∧
      "Error getting clutch stats" ∈ netMsgs "P" "2022-23" exNetEnvAllFail) ∧
    ("Error getting playoff stats" ∈ netMsgs "P" "2022-23" exNetEnvAllFail) := by
  refine ⟨?_, ?_, ?_, ?_, ?_, ?_, ?_⟩
  · have h := (c5_failures_isolated "P" "2022-23" [] [] exEnvFail).1 rfl
    exact ⟨h.1, h.2.2⟩
  · have h := ((c5_failures_isolated "P" "2022-23" [] [] exEnvAdvFail).2.1)
      [exClutchRow] exClutchRow rfl rfl rfl
    exact ⟨h.1, h.2.2⟩
  · exact ((c5_failures_isolated "P" "2022-23" [] [] exEnvShotFail).2.2.1)
      [exClutchRow] exClutchRow [] rfl rfl rfl rfl
  · exact ((c5_failures_isolated "P" "2022-23" [] [] exEnvRegFetchFail).2.2.2.1)
      [exClutchRow] exClutchRow [] [{ distance := 1, made := true }] rfl rfl rfl rfl rfl
  · exact (c5_failures_isolated "P" "2022-23" [] [] exEnvFail).2.2.2.2.1 exNetEnvRegFail rfl
  · exact (c5_failures_isolated "P" "2022-23" [] [] exEnvFail).2.2.2.2.2.1 exNetEnvAllFail rfl
  · exact ((c5_failures_isolated "P" "2022-23" [] [] exEnvFail).2.2.2.2.2.2
      exNetEnvAllFail rfl).2

/-- Claim C7: a player name the static lookup cannot resolve (no match,
or several matches with a missing/non-integer/out-of-range selection)
makes both entry points return a null result instead of raising. -/
theorem c7_unresolved_name_returns_null (name : String) (found : List Player)
    (sel : Option ℤ) (info : Option (List InfoRow)) (senvs : List (String × SeasonEnv))
    (nenvs : List (String × NetEnv))
    (h : found = [] ∨ (2 ≤ found.length ∧
      (sel = none ∨ ∀ i : ℤ, sel = some i → (i < 0 ∨ (found.length : ℤ) ≤ i)))) :
    resolvePlayer found sel = none ∧
    (resolveFailMsg name found sel).isSome ∧
    analyze_clutch_player name
      { found := found, selection := sel, playerInfo := info, seasonEnvs := senvs } = none ∧
    compare_net_rating name found sel nenvs = none := by
  have hres : resolvePlayer found sel = none ∧ (resolveFailMsg name found sel).isSome := by
    rcases h with rfl | ⟨hlen, hsel⟩
    · exact ⟨rfl, rfl⟩
    · rcases found with _ | ⟨a, tail⟩
      · simp at hlen
      rcases tail with _ | ⟨b, rest⟩
      · simp at hlen
      rcases hsel with rfl | hout
      · exact ⟨rfl, rfl⟩
      rcases hs : sel with _ | i
      · exact ⟨rfl, rfl⟩
      have hb := hout i hs
      have hlen2 : ((a :: b :: rest).length : ℤ) = (rest.length : ℤ) + 2 := by
        simp; omega
      have hcond : ¬(0 ≤ i ∧ i < ((a :: b :: rest).length : ℤ)) := by
        rintro ⟨hc1, hc2⟩
        rw [hlen2] at hc2
        omega
      constructor
      · simp only [resolvePlayer]
        rw [if_neg hcond]
      · simp only [resolveFailMsg]
        rw [if_neg hcond]
        rfl
  refine ⟨hres.1, hres.2, ?_, ?_⟩
  · simp [analyze_clutch_player, hres.1]
  · simp [compare_net_rating, hres.1]

/-- Witness for C7 on an empty lookup result. -/
theorem c7_unresolved_name_returns_null_witness :
    resolvePlayer [] none = none ∧
    (resolveFailMsg "Nobody" [] none).isSome ∧
    analyze_clutch_player "Nobody"
      { found := [], selection := none, playerInfo := none, seasonEnvs := [] } = none ∧
    compare_net_rating "Nobody" [] none [] = none :=
  c7_unresolved_name_returns_null "Nobody" [] none none [] [] (Or.inl rfl)

/-- Claim C10: whenever `compare_net_rating` returns a frame, it has
exactly one row per requested season, in the input order, each row
built with all four fields; no season is dropped. -/
theorem c10_one_row_per_season (name : String) (found : List Player) (sel : Option ℤ)
    (envs : List (String × NetEnv)) (rows : List NetRow)
    (h : compare_net_rating name found sel envs = some rows) :
    rows = envs.map (fun p => netRowOf name p.1 p.2) ∧
    rows.length = envs.length ∧
    rows.map NetRow.season = envs.map Prod.fst := by
  rcases hres : resolvePlayer found sel with _ | pid
  · simp [compare_net_rating, hres] at h
  simp only [compare_net_rating, hres, Option.some.injEq] at h
  subst h
  refine ⟨rfl, by simp, ?_⟩
  rw [List.map_map]
  rfl

/-- Witness for C10 on one requested season whose three fetches all
fail: the row is kept, with the season name and three null columns. -/
theorem c10_one_row_per_season_witness :
    ([{ season := "2017-18", regular := none, clutch := none, playoffs := none }]
        : List NetRow) =
      [("2017-18", exNetEnvAllFail)].map (fun p => netRowOf "Chris Paul" p.1 p.2) ∧
    ([{ season := "2017-18", regular := none, clutch := none, playoffs := none }]
        : List NetRow).length = [("2017-18", exNetEnvAllFail)].length ∧
    ([{ season := "2017-18", regular := none, clutch := none, playoffs := none }]
        : List NetRow).map NetRow.season = [("2017-18", exNetEnvAllFail)].map Prod.fst :=
  c10_one_row_per_season "Chris Paul" [{ full_name := "Chris Paul", id := 101108, is_active := true }]
    none [("2017-18", exNetEnvAllFail)]
    [{ season := "2017-18", regular := none, clutch := none, playoffs := none }] rfl

end NbaClutch
